import Mathlib

/-!
Shallow embedding of the session lifecycle and goal accounting of the
study-analytics plugin (`src/main.ts`).  Timestamps are wall-clock
milliseconds modelled as `Int`; every operation that reads the clock
(`new Date()` / `Date.now()` in the source) takes the current time as an
explicit `now : Int` argument.  JavaScript `Map<string, number>` objects
are modelled as association lists, `Set` insertion order is irrelevant to
every claim and sets are omitted where no claim mentions them.
-/

/-- JS `Math.round(ms / 60000)` (minutes from milliseconds).
`Math.round x = ⌊x + 1/2⌋` (halves round toward +∞), so
`Math.round (ms / 60000) = ⌊(ms + 30000) / 60000⌋`, i.e. floor division. -/
def roundMsToMinutes (ms : Int) : Int :=
  (ms + 30000).fdiv 60000

/-- JS `Math.ceil(ms / 1000)` (seconds from milliseconds), used by
`breakTimer` to recompute `timeLeft` from the absolute end time. -/
def ceilMsToSeconds (ms : Int) : Int :=
  -((-ms).fdiv 1000)

/-- `Map.has` on an association list (JS `Map<string, number>`). -/
def mapHas (m : List (String × Int)) (k : String) : Bool :=
  m.any (fun p => p.1 == k)

/-- `map.get(k) || 0` on an association list, as in the source's
`this.initialWordCounts.get(filePath) || 0`. -/
def mapGet (m : List (String × Int)) (k : String) : Int :=
  match m.find? (fun p => p.1 == k) with
  | some p => p.2
  | none => 0

/-- `Map.set` on an association list: overwrite the binding if the key is
present, append it otherwise. -/
def mapSet (m : List (String × Int)) (k : String) (v : Int) : List (String × Int) :=
  match m with
  | [] => [(k, v)]
  | p :: rest => if p.1 == k then (k, v) :: rest else p :: mapSet rest k v

/-- The mutable per-session state of `class StudySession` (src/main.ts
lines 139-310), restricted to the fields the verified claims touch.
`endTime`/`breakStartTime` are `Option` because the source uses `null`.
The append-only note/task/file collections are not mentioned by any
claim and are omitted. -/
structure StudySession where
  category : String
  startTime : Int
  endTime : Option Int
  pomodorosCompleted : Int
  difficulty : Int
  notes : String
  completed : Bool
  breakStartTime : Option Int
  totalBreakDuration : Int
  isBreak : Bool
  wordCount : Int
  initialWordCounts : List (String × Int)
deriving Repr, DecidableEq

/-- `new StudySession(category)` (constructor, lines 163-186). -/
def StudySession.create (category : String) (now : Int) : StudySession :=
  { category := category
    startTime := now
    endTime := none
    pomodorosCompleted := 0
    difficulty := 1
    notes := ""
    completed := false
    breakStartTime := none
    totalBreakDuration := 0
    isBreak := category == "~Break~"
    wordCount := 0
    initialWordCounts := [] }

/-- `StudySession.break()` (lines 188-192): open a pause if none is open.
(`break` is a reserved word in Lean, hence the quoted name.) -/
def StudySession.«break» (now : Int) (s : StudySession) : StudySession :=
  match s.breakStartTime with
  | none => { s with breakStartTime := some now }
  | some _ => s

/-- `StudySession.resume()` (lines 194-199): close an open pause, adding
its length to `totalBreakDuration`. -/
def StudySession.resume (now : Int) (s : StudySession) : StudySession :=
  match s.breakStartTime with
  | some t => { s with totalBreakDuration := s.totalBreakDuration + (now - t)
                       breakStartTime := none }
  | none => s

/-- `StudySession.getDuration()` (lines 275-283), in minutes. -/
def StudySession.getDuration (now : Int) (s : StudySession) : Int :=
  let endT := s.endTime.getD now
  let d1 := roundMsToMinutes (endT - s.startTime)
  let d2 :=
    match s.breakStartTime with
    | some t => d1 - roundMsToMinutes (now - t)
    | none => d1
  let d3 := d2 - roundMsToMinutes s.totalBreakDuration
  max 0 d3

/-- `StudySession.updateWordCount(filePath, currentWordCount)`
(lines 241-252). -/
def StudySession.updateWordCount (filePath : String) (currentWordCount : Int)
    (s : StudySession) : StudySession :=
  if !(mapHas s.initialWordCounts filePath) then
    { s with initialWordCounts := mapSet s.initialWordCounts filePath currentWordCount }
  else
    let initialCount := mapGet s.initialWordCounts filePath
    if currentWordCount > initialCount then
      { s with wordCount := s.wordCount + (currentWordCount - initialCount)
               initialWordCounts := mapSet s.initialWordCounts filePath currentWordCount }
    else s

/-- The finalized record (`interface SessionData`, lines 111-132)
restricted to the fields the claims touch. -/
structure SessionData where
  category : String
  startTime : Int
  duration : Int
  pomodoros : Int
  difficulty : Int
  notes : String
  completed : Bool
  isBreak : Bool
  breakDuration : Int
  wordCount : Int
deriving Repr, DecidableEq

/-- `StudySession.end()` (lines 285-309): set `endTime := now`
(unconditionally — the source has no already-finalized guard) and build
the record.  Returns the record together with the mutated session. -/
def StudySession.endSession (now : Int) (s : StudySession) :
    SessionData × StudySession :=
  let s2 : StudySession := { s with endTime := some now }
  ({ category := s2.category
     startTime := s2.startTime
     duration := StudySession.getDuration now s2
     pomodoros := s2.pomodorosCompleted
     difficulty := s2.difficulty
     notes := s2.notes
     completed := s2.completed
     isBreak := s2.isBreak
     breakDuration := roundMsToMinutes s2.totalBreakDuration
     wordCount := s2.wordCount }, s2)

/-- `interface RecurringGoal` (src/main.ts lines 5-10).  `timeGoal` and
`timeSpent` are fractional hour counts (JS numbers), modelled as `ℚ`.
The source declares `timeSpent`/`achieved` optional and guards every use
with a falsiness check (`if (!goal.timeSpent) goal.timeSpent = 0`), which
identifies `undefined` with `0`/`false`; they are therefore modelled as
plain fields defaulting to `0`/`false`. -/
structure RecurringGoal where
  timeGoal : ℚ
  periodIsWeekly : Bool
  achieved : Bool
  timeSpent : ℚ
deriving Repr, DecidableEq

/-- The goal-accrual step shared verbatim by `changeCategory`
(lines 894-909) and `endCurrentSession` (lines 2180-2195):
`goal.timeSpent += sessionDuration` with
`sessionDuration = getDuration() / 60` (minutes to hours), then
`if (!goal.achieved && goal.timeSpent >= goal.timeGoal) goal.achieved = true`. -/
def accrueGoal (durationMinutes : Int) (g : RecurringGoal) : RecurringGoal :=
  let ts : ℚ := g.timeSpent + (durationMinutes : ℚ) / 60
  { g with timeSpent := ts
           achieved := if !g.achieved && decide (ts ≥ g.timeGoal) then true else g.achieved }

/-- The goal-countdown completion step (lines 1040-1045): when the
goal-mode countdown reaches zero, `if (goal && !goal.achieved)
goal.achieved = true`; `timeSpent` is not touched. -/
def completeGoalCountdown (g : RecurringGoal) : RecurringGoal :=
  if !g.achieved then { g with achieved := true } else g

/-- The per-period reset applied to a matching goal by
`resetRecurringGoals` (lines 3113-3119): `goal.timeSpent = 0;
goal.achieved = false`. -/
def resetGoal (g : RecurringGoal) : RecurringGoal :=
  { g with timeSpent := 0, achieved := false }

/-- The events that touch one category's goal between queries: a
session-finalize accrual (carrying the finalized session's duration in
minutes), a goal-countdown completion, and the explicit period reset. -/
inductive GoalEvent where
  | accrue (durationMinutes : Int)
  | countdownComplete
  | reset
deriving Repr, DecidableEq

/-- Apply one goal event. -/
def applyGoalEvent (g : RecurringGoal) : GoalEvent → RecurringGoal
  | .accrue d => accrueGoal d g
  | .countdownComplete => completeGoalCountdown g
  | .reset => resetGoal g

/-- Apply a sequence of goal events, oldest first. -/
def applyGoalEvents (g : RecurringGoal) (es : List GoalEvent) : RecurringGoal :=
  es.foldl applyGoalEvent g

/-- `settings.recurringSessionGoals[category]` lookup on the association
list modelling the `Record<string, RecurringGoal>`. -/
def goalsGet (gs : List (String × RecurringGoal)) (k : String) : Option RecurringGoal :=
  (gs.find? (fun p => p.1 == k)).map (·.2)

/-- In-place update of `settings.recurringSessionGoals[category]` (the
source mutates the goal object through the record reference). -/
def goalsSet (gs : List (String × RecurringGoal)) (k : String) (v : RecurringGoal) :
    List (String × RecurringGoal) :=
  match gs with
  | [] => []
  | p :: rest => if p.1 == k then (k, v) :: rest else p :: goalsSet rest k v

/-- The settings fields (`interface StudyAnalyticsSettings`) read by the
modelled operations. -/
structure Settings where
  pomodoroTime : Int
  shortBreakTime : Int
  longBreakTime : Int
  longBreakInterval : Int
  categories : List String
  autoStartBreaks : Bool
  autoStartPomodoros : Bool
  showDifficulty : Bool
  enableRecurringSessions : Bool
  recurringSessionGoals : List (String × RecurringGoal)
deriving Repr, DecidableEq

/-- The combined mutable state of `StudyFlowView` and
`StudyAnalyticsPlugin` touched by the modelled operations.
`sessionsData` is the persisted record list (`saveSessionToFile` appends
to `this.sessionsData.sessions`, lines 2213-2230); `selectedCategory`
and `categoryOptions` model the DOM `categorySelect`'s value and option
list; `notesAreaValue`/`difficultyValue` model the input widgets;
`intervalActive` models whether the `setInterval` handle is non-null. -/
structure AppState where
  settings : Settings
  currentSession : Option StudySession
  sessionsData : List SessionData
  selectedCategory : String
  categoryOptions : List String
  notesAreaValue : String
  difficultyValue : Int
  timeLeft : Int
  isRunning : Bool
  isBreak : Bool
  pomodoroCount : Int
  isStopwatch : Bool
  isRecurringSession : Bool
  stopwatchStartTime : Option Int
  stopwatchElapsed : Int
  goalTimeRemaining : Int
  timerStartTime : Option Int
  lastUpdate : Option Int
  startTimeWall : Int
  endTimeWall : Int
  intervalActive : Bool
deriving Repr, DecidableEq

/-- `StudyAnalyticsPlugin.startNewSession(category)` (lines 2161-2163). -/
def startNewSession (now : Int) (category : String) (st : AppState) : AppState :=
  { st with currentSession := some (StudySession.create category now) }

/-- `StudyFlowView.breakTimer()` (lines 1080-1100): stop the tick, open a
pause on the live session, and (outside stopwatch mode) recompute
`timeLeft` from the absolute wall-clock end time.  The display-only
`updateDailyTime`/`endTimeDisplay` effects are not modelled. -/
def breakTimer (now : Int) (st : AppState) : AppState :=
  let st := { st with isRunning := false }
  let st :=
    match st.currentSession with
    | some s => { st with currentSession := some (s.«break» now) }
    | none => st
  let st := { st with intervalActive := false }
  if !st.isStopwatch then
    { st with timeLeft := max 0 (ceilMsToSeconds (st.endTimeWall - now)) }
  else st

/-- `StudyFlowView.startTimer()` (lines 968-1078): implicitly create a
session if none is live, resume it, mark the timer running, and set up
the mode-specific tick state.  The tick callback itself fires later and
is modelled separately; only the synchronous setup is modelled here.
In the goal-countdown branch the source resets `goalTimeRemaining` to
the full goal when `this.timerStartTime === null`; `timerStartTime` is
never assigned a non-null value anywhere in the source, so the check is
kept but always succeeds. -/
def startTimer (now : Int) (st : AppState) : AppState :=
  let st :=
    if st.currentSession.isNone then startNewSession now st.selectedCategory st else st
  let st :=
    match st.currentSession with
    | some s => { st with currentSession := some (s.resume now) }
    | none => st
  let st := { st with isRunning := true }
  if st.isStopwatch then
    let st :=
      if st.stopwatchStartTime.isNone then
        { st with stopwatchStartTime := some (now - st.stopwatchElapsed) }
      else st
    { st with intervalActive := true }
  else if st.isRecurringSession then
    if !st.intervalActive then
      let st :=
        if st.selectedCategory ≠ "" then
          match goalsGet st.settings.recurringSessionGoals st.selectedCategory with
          | some goal =>
            if st.timerStartTime.isNone then
              { st with goalTimeRemaining := ⌊goal.timeGoal * 3600⌋ }
            else st
          | none => st
        else st
      { st with startTimeWall := now
                endTimeWall := now + st.goalTimeRemaining * 1000
                lastUpdate := some now
                intervalActive := true }
    else st
  else
    if !st.intervalActive then
      { st with startTimeWall := now
                endTimeWall := now + st.timeLeft * 1000
                lastUpdate := some now
                intervalActive := true }
    else st
/-- `StudyFlowView.resetSession()` (lines 816-861): reset the
mode-specific timer value, stop the timer, clear the tick handle and the
input widgets, and select the first category option.  It does not touch
`plugin.currentSession` or the persisted records. -/
def resetSession (st : AppState) : AppState :=
  let st :=
    if st.isStopwatch then
      { st with stopwatchElapsed := 0 }
    else if st.isRecurringSession then
      if st.selectedCategory ≠ "" then
        match goalsGet st.settings.recurringSessionGoals st.selectedCategory with
        | some goal => { st with goalTimeRemaining := ⌊goal.timeGoal * 3600⌋ }
        | none => { st with goalTimeRemaining := 0 }
      else { st with goalTimeRemaining := 0 }
    else
      { st with timeLeft := st.settings.pomodoroTime * 60
                isBreak := false
                pomodoroCount := 0 }
  let st := { st with isRunning := false
                      timerStartTime := none
                      lastUpdate := none
                      intervalActive := false }
  let st := { st with notesAreaValue := ""
                      difficultyValue := 1 }
  if st.categoryOptions ≠ [] then
    { st with selectedCategory := st.categoryOptions.headD st.selectedCategory }
  else st

/-- `StudyFlowView.updateCategorySelect()` (lines 735-748): rebuild the
category option list; while in a break only the `~Break~` option is
shown.  Emptying and refilling a DOM select makes its first option the
selected value. -/
def updateCategorySelect (st : AppState) : AppState :=
  let opts :=
    st.settings.categories.filter (fun cat => !st.isBreak || cat == "~Break~")
  { st with categoryOptions := opts
            selectedCategory := opts.headD "" }

/-- `StudyFlowView.toggleTimerMode()` (lines 1275-1327): pause a running
timer, cycle pomodoro → stopwatch → goal-countdown → pomodoro (skipping
goal-countdown when recurring sessions are disabled), reset the timer
state, rebuild the category options, and restore the previously selected
category when still available.  The live session is neither finalized
nor persisted. -/
def toggleTimerMode (now : Int) (st : AppState) : AppState :=
  let st := if st.isRunning then breakTimer now st else st
  let currentCategory := st.selectedCategory
  let st :=
    if !st.isStopwatch && !st.isRecurringSession then
      { st with isStopwatch := true, isRecurringSession := false }
    else if st.isStopwatch && !st.isRecurringSession then
      if st.settings.enableRecurringSessions then
        let st := { st with isStopwatch := false, isRecurringSession := true }
        match goalsGet st.settings.recurringSessionGoals currentCategory with
        | some goal => { st with goalTimeRemaining := ⌊goal.timeGoal * 3600⌋ }
        | none => st
      else
        { st with isStopwatch := false, isRecurringSession := false }
    else
      { st with isStopwatch := false, isRecurringSession := false }
  let st := resetSession st
  let st := updateCategorySelect st
  if currentCategory ∈ st.categoryOptions then
    { st with selectedCategory := currentCategory }
  else st

/-- `StudyFlowView.completeTimer()` (lines 1102-1186): on a work-interval
completion, pause, increment the pomodoro counters, finalize and persist
the session, switch the display to the (long or short) break duration,
start a new `~Break~` session, and optionally auto-start it; on a break
completion, restore the work duration, finalize and persist the break
session, and optionally auto-start the next work session. -/
def completeTimer (now : Int) (st : AppState) : AppState :=
  let st := breakTimer now st
  if !st.isBreak then
    let st := { st with pomodoroCount := st.pomodoroCount + 1 }
    match st.currentSession with
    | some s =>
      let s := { s with notes := st.notesAreaValue }
      let s := if st.settings.showDifficulty then { s with difficulty := st.difficultyValue } else s
      let s := { s with pomodorosCompleted := s.pomodorosCompleted + 1 }
      let ended := s.endSession now
      let st := { st with currentSession := some ended.2
                          sessionsData := st.sessionsData ++ [ended.1] }
      let isLongBreak := st.pomodoroCount % st.settings.longBreakInterval == 0
      let breakTime := if isLongBreak then st.settings.longBreakTime else st.settings.shortBreakTime
      let st := { st with timeLeft := breakTime * 60
                          isBreak := true
                          notesAreaValue := ""
                          difficultyValue := 1 }
      let st := startNewSession now "~Break~" st
      let st := { st with selectedCategory := "~Break~" }
      if st.settings.autoStartBreaks then startTimer now st else st
    | none => st
  else
    let st := { st with timeLeft := st.settings.pomodoroTime * 60, isBreak := false }
    let st :=
      match st.currentSession with
      | some s =>
        let s := { s with notes := st.notesAreaValue }
        let ended := s.endSession now
        { st with currentSession := some ended.2
                  sessionsData := st.sessionsData ++ [ended.1]
                  notesAreaValue := ""
                  difficultyValue := 1 }
      | none => st
    if st.settings.autoStartPomodoros then
      let category := (st.settings.categories.find? (fun c => c != "~Break~")).getD "Study"
      let st := startNewSession now category st
      let st := { st with selectedCategory := category }
      startTimer now st
    else st
/-- `StudyFlowView.changeCategory(newCategory)` (lines 871-966): when a
session is live under a *different* category, save the widget inputs
into it, accrue its live duration to its category's goal when in
goal-countdown mode, pause if running, finalize and persist it, start a
fresh session under the new category, restore the remembered timer mode
and value, and restart the timer if it was running.  When no session is
live or the category is unchanged, nothing at all happens. -/
def changeCategory (now : Int) (newCategory : String) (st : AppState) : AppState :=
  match st.currentSession with
  | some s0 =>
    if s0.category ≠ newCategory then
      let s := { s0 with notes := st.notesAreaValue }
      let s := if st.settings.showDifficulty then { s with difficulty := st.difficultyValue } else s
      let st := { st with currentSession := some s }
      let wasRunning := st.isRunning
      let timeLeftBackup := st.timeLeft
      let stopwatchElapsedBackup := st.stopwatchElapsed
      let isStopwatchBackup := st.isStopwatch
      let isRecurringSessionBackup := st.isRecurringSession
      let st :=
        if isRecurringSessionBackup && !s.isBreak then
          match goalsGet st.settings.recurringSessionGoals s.category with
          | some goal =>
            let gs := goalsSet st.settings.recurringSessionGoals s.category
              (accrueGoal (StudySession.getDuration now s) goal)
            { st with settings := { st.settings with recurringSessionGoals := gs } }
          | none => st
        else st
      let st := if wasRunning then breakTimer now st else st
      match st.currentSession with
      | some s2 =>
        let ended := s2.endSession now
        let st := { st with currentSession := some ended.2
                            sessionsData := st.sessionsData ++ [ended.1] }
        let st := startNewSession now newCategory st
        let st := { st with selectedCategory := newCategory
                            difficultyValue := 1 }
        let st :=
          if isStopwatchBackup then
            { st with isStopwatch := true
                      isRecurringSession := false
                      stopwatchElapsed := stopwatchElapsedBackup }
          else if isRecurringSessionBackup then
            let st := { st with isStopwatch := false, isRecurringSession := true }
            match goalsGet st.settings.recurringSessionGoals newCategory with
            | some goal => { st with goalTimeRemaining := ⌊goal.timeGoal * 3600⌋ }
            | none => { st with goalTimeRemaining := 0 }
          else
            { st with isStopwatch := false
                      isRecurringSession := false
                      timeLeft := timeLeftBackup }
        if wasRunning then startTimer now st else st
      | none => st
    else st
  | none => st

/-- `StudyAnalyticsPlugin.endCurrentSession()` (lines 2165-2211), with
the view present (the `if (view)` guard taken): save the widget inputs
into the live session, accrue its duration to its category's goal when
the view is in goal-countdown mode and the session is not a break,
finalize and persist it, clear `currentSession`, and reset the view.
A no-op when no session is live. -/
def endCurrentSession (now : Int) (st : AppState) : AppState :=
  match st.currentSession with
  | none => st
  | some s0 =>
    let s := { s0 with notes := st.notesAreaValue }
    let s := if st.settings.showDifficulty then { s with difficulty := st.difficultyValue } else s
    let st := { st with currentSession := some s }
    let st :=
      if st.isRecurringSession && !s.isBreak then
        match goalsGet st.settings.recurringSessionGoals s.category with
        | some goal =>
          let gs := goalsSet st.settings.recurringSessionGoals s.category
            (accrueGoal (StudySession.getDuration now s) goal)
          { st with settings := { st.settings with recurringSessionGoals := gs } }
        | none => st
      else st
    let ended := s.endSession now
    let st := { st with sessionsData := st.sessionsData ++ [ended.1]
                        currentSession := none }
    resetSession st

/-- The `daysRemaining` computation of `StudyFlowView.updateDailyTime`
(lines 594-599), used to prorate weekly goals:
`weeklySummaryDay === currentDay ? 7 : (7 + weeklySummaryDay - currentDay) % 7 || 7`.
`%` is the JS remainder; its dividend `7 + w - d` is positive for day
numbers in 0-6, where JS remainder and `Int.emod` agree.  `|| 7` maps a
zero remainder to 7. -/
def daysRemainingInPeriod (weeklySummaryDay currentDay : Int) : Int :=
  if weeklySummaryDay = currentDay then 7
  else
    let m := (7 + weeklySummaryDay - currentDay) % 7
    if m = 0 then 7 else m
/-- Sequence of `updateWordCount("note.md", n)` calls from the spec's
scenario b): 100, 150, 120, 140 on a fresh session. -/
def wordSeqSession : StudySession :=
  [("note.md", (100 : Int)), ("note.md", 150), ("note.md", 120), ("note.md", 140)].foldl
    (fun s c => s.updateWordCount c.1 c.2) (StudySession.create "Study" 0)

/-- A configured recurring daily goal of 2 hours. -/
def sampleGoal : RecurringGoal :=
  { timeGoal := 2, periodIsWeekly := false, achieved := false, timeSpent := 0 }

/-- Default-like settings with a recurring goal on category `Study` and
no auto-start, used by the concrete scenarios. -/
def sampleSettings : Settings :=
  { pomodoroTime := 25
    shortBreakTime := 5
    longBreakTime := 15
    longBreakInterval := 4
    categories := ["Study", "Work", "~Break~"]
    autoStartBreaks := false
    autoStartPomodoros := false
    showDifficulty := true
    enableRecurringSessions := true
    recurringSessionGoals := [("Study", sampleGoal)] }

/-- A running pomodoro-mode state whose live `Study` session started at
`t = 0` and whose work interval ends at `t = 1500000` (25 minutes). -/
def samplePomodoroState : AppState :=
  { settings := sampleSettings
    currentSession := some (StudySession.create "Study" 0)
    sessionsData := []
    selectedCategory := "Study"
    categoryOptions := ["Study", "Work", "~Break~"]
    notesAreaValue := ""
    difficultyValue := 1
    timeLeft := 0
    isRunning := true
    isBreak := false
    pomodoroCount := 0
    isStopwatch := false
    isRecurringSession := false
    stopwatchStartTime := none
    stopwatchElapsed := 0
    goalTimeRemaining := 0
    timerStartTime := none
    lastUpdate := some 0
    startTimeWall := 0
    endTimeWall := 1500000
    intervalActive := true }

/-- The same state with the view in goal-countdown (recurring-session)
mode. -/
def sampleGoalModeState : AppState :=
  { samplePomodoroState with isStopwatch := false, isRecurringSession := true }

/-- First `end()` call on a fresh `Study` session, at `t = 60000`. -/
def firstEnd : SessionData × StudySession :=
  StudySession.endSession 60000 (StudySession.create "Study" 0)

/-- Second `end()` call on the already-finalized session, at
`t = 120000`. -/
def secondEnd : SessionData × StudySession :=
  StudySession.endSession 120000 firstEnd.2

/-! ## Arithmetic helpers for the minute rounding -/

lemma roundMsToMinutes_eq_ediv (ms : Int) :
    roundMsToMinutes ms = (ms + 30000) / 60000 := by
  unfold roundMsToMinutes
  exact Int.fdiv_eq_ediv _ (by norm_num)

lemma roundMsToMinutes_mono {a b : Int} (h : a ≤ b) :
    roundMsToMinutes a ≤ roundMsToMinutes b := by
  rw [roundMsToMinutes_eq_ediv, roundMsToMinutes_eq_ediv]
  exact Int.ediv_le_ediv (by norm_num) (by linarith)

lemma roundMsToMinutes_nonneg {ms : Int} (h : 0 ≤ ms) :
    0 ≤ roundMsToMinutes ms := by
  have h0 : roundMsToMinutes 0 = 0 := by decide
  calc 0 = roundMsToMinutes 0 := h0.symm
    _ ≤ roundMsToMinutes ms := roundMsToMinutes_mono h

lemma roundMsToMinutes_nonpos {ms : Int} (h : ms ≤ 0) :
    roundMsToMinutes ms ≤ 0 := by
  have h0 : roundMsToMinutes 0 = 0 := by decide
  calc roundMsToMinutes ms ≤ roundMsToMinutes 0 := roundMsToMinutes_mono h
    _ = 0 := h0

lemma ediv_shift_bounds (y p : Int) :
    y / 60000 + p / 60000 ≤ (y + p) / 60000 ∧
    (y + p) / 60000 ≤ y / 60000 + p / 60000 + 1 := by
  have h0 : (60000 : Int) ≠ 0 := by norm_num
  have hpos : (0 : Int) < 60000 := by norm_num
  have hdecomp : y + p = (y + p % 60000) + (p / 60000) * 60000 := by
    have h := Int.ediv_add_emod p 60000
    linarith
  have hrw : (y + p) / 60000 = (y + p % 60000) / 60000 + p / 60000 := by
    rw [hdecomp, Int.add_mul_ediv_right _ _ h0]
  have hrnn : 0 ≤ p % 60000 := Int.emod_nonneg p h0
  have hrlt : p % 60000 < 60000 := Int.emod_lt_of_pos p hpos
  constructor
  · have hm : y / 60000 ≤ (y + p % 60000) / 60000 :=
      Int.ediv_le_ediv hpos (by linarith)
    rw [hrw]; linarith
  · have h1 : (y + p % 60000) / 60000 ≤ (y + 1 * 60000) / 60000 :=
      Int.ediv_le_ediv hpos (by linarith)
    have h2 : (y + 1 * 60000) / 60000 = y / 60000 + 1 :=
      Int.add_mul_ediv_right _ _ h0
    rw [hrw]; linarith

lemma roundMsToMinutes_shift_bounds (x p : Int) :
    roundMsToMinutes x + p / 60000 ≤ roundMsToMinutes (x + p) ∧
    roundMsToMinutes (x + p) ≤ roundMsToMinutes x + p / 60000 + 1 := by
  have h := ediv_shift_bounds (x + 30000) p
  rw [roundMsToMinutes_eq_ediv, roundMsToMinutes_eq_ediv]
  have hx : x + p + 30000 = x + 30000 + p := by ring
  rw [hx]
  exact h

/-! ## C1: the duration contract -/

/-- Claim C1: `getDuration()` returns
`round((end - start)/60000) - round(openPauseElapsed/60000) -
round(accumulatedPause/60000)` clamped to be nonnegative, where `end` is
`endTime` when finalized and the query time otherwise and the open-pause
term is present exactly when the session is paused; when `end < start`
(and the clock anomalies stay on the pause-free side) the result is `0`,
never negative. -/
theorem getDuration_contract (s : StudySession) (now : Int) :
    StudySession.getDuration now s =
      max 0 (roundMsToMinutes (s.endTime.getD now - s.startTime)
        - (match s.breakStartTime with
           | some t => roundMsToMinutes (now - t)
           | none => 0)
        - roundMsToMinutes s.totalBreakDuration) ∧
    0 ≤ StudySession.getDuration now s ∧
    (s.endTime.getD now < s.startTime →
      (∀ t, s.breakStartTime = some t → t ≤ now) →
      0 ≤ s.totalBreakDuration →
      StudySession.getDuration now s = 0) := by
  refine ⟨?_, ?_, ?_⟩
  · cases h : s.breakStartTime <;> simp [StudySession.getDuration, h]
  · cases h : s.breakStartTime <;> simp [StudySession.getDuration, h]
  · intro hlt hpause htb
    have h1 : roundMsToMinutes (s.endTime.getD now - s.startTime) ≤ 0 :=
      roundMsToMinutes_nonpos (by linarith)
    have h3 : 0 ≤ roundMsToMinutes s.totalBreakDuration :=
      roundMsToMinutes_nonneg htb
    cases h : s.breakStartTime with
    | none =>
      simp only [StudySession.getDuration, h]
      omega
    | some t =>
      have h2 : 0 ≤ roundMsToMinutes (now - t) := by
        have ht := hpause t h
        exact roundMsToMinutes_nonneg (by linarith)
      simp only [StudySession.getDuration, h]
      omega

/-- Witness for C1 at a concrete skewed clock: a session created at
`t = 0` and finalized at `t = -60000` (the clock jumped back) reports
duration `0`. -/
theorem getDuration_contract_witness :
    StudySession.getDuration 0
      { StudySession.create "Study" 0 with endTime := some (-60000) } = 0 := by
  exact (getDuration_contract
      { StudySession.create "Study" 0 with endTime := some (-60000) } 0).2.2
    (by decide) (by intro t ht; cases ht) (by decide)
/-! ## C2 / C9: word-count delta policy -/

lemma mapGet_mapSet_self (m : List (String × Int)) (k : String) (v : Int) :
    mapGet (mapSet m k v) k = v := by
  induction m with
  | nil => simp [mapGet, mapSet]
  | cons p rest ih =>
    by_cases h : p.1 == k
    · simp [mapGet, mapSet, h]
    · simp only [mapSet, h, Bool.false_eq_true, if_false]
      simpa [mapGet, h] using ih

/-- Counterexample to C2: the spec's own scenario 100, 150, 120, 140 on
one path leaves `wordCount = 50`, not `70`, and the stored baseline is
still `150`, not `120` — the source never lowers a baseline. -/
theorem updateWordCount_counterexample :
    wordSeqSession.wordCount = 50 ∧
    ¬ wordSeqSession.wordCount = 70 ∧
    mapGet wordSeqSession.initialWordCounts "note.md" = 150 ∧
    ¬ mapGet wordSeqSession.initialWordCounts "note.md" = 120 := by
  decide

/-- Amended C2: after the first observation of a path,
`updateWordCount(path, n)` adds `n - previousBaseline` and raises the
baseline to `n` only when `n` exceeds the previous baseline; when
`n ≤ previousBaseline` the call changes nothing (the baseline is *not*
lowered).  The spec's sequence 100, 150, 120, 140 therefore leaves
`wordCount = 50`. -/
theorem updateWordCount_amended (s : StudySession) (path : String) (n : Int) :
    (mapHas s.initialWordCounts path = false →
      (s.updateWordCount path n).wordCount = s.wordCount ∧
      mapGet (s.updateWordCount path n).initialWordCounts path = n) ∧
    (mapHas s.initialWordCounts path = true →
      n ≤ mapGet s.initialWordCounts path →
      s.updateWordCount path n = s) ∧
    (mapHas s.initialWordCounts path = true →
      mapGet s.initialWordCounts path < n →
      (s.updateWordCount path n).wordCount
          = s.wordCount + (n - mapGet s.initialWordCounts path) ∧
      mapGet (s.updateWordCount path n).initialWordCounts path = n) ∧
    wordSeqSession.wordCount = 50 := by
  refine ⟨?_, ?_, ?_, by decide⟩
  · intro h
    simp [StudySession.updateWordCount, h, mapGet_mapSet_self]
  · intro h hle
    have hgt : ¬ mapGet s.initialWordCounts path < n := by omega
    simp [StudySession.updateWordCount, h, hgt]
  · intro h hlt
    simp [StudySession.updateWordCount, h, hlt, mapGet_mapSet_self]

/-- Witness for the amended C2: on the session produced by the spec's
sequence (baseline 150), a further call with 200 adds 50 and raises the
baseline to 200. -/
theorem updateWordCount_amended_witness :
    (wordSeqSession.updateWordCount "note.md" 200).wordCount
        = wordSeqSession.wordCount + (200 - mapGet wordSeqSession.initialWordCounts "note.md") ∧
    mapGet (wordSeqSession.updateWordCount "note.md" 200).initialWordCounts "note.md" = 200 :=
  (updateWordCount_amended wordSeqSession "note.md" 200).2.2.1 (by decide) (by decide)

/-- Claim C9: over any finite call sequence with arbitrary paths and
counts (decreases included), the cumulative `wordCount` never
decreases. -/
theorem wordCount_non_decreasing :
    ∀ (calls : List (String × Int)) (s : StudySession),
      s.wordCount ≤ (calls.foldl (fun acc c => acc.updateWordCount c.1 c.2) s).wordCount := by
  have step : ∀ (s : StudySession) (path : String) (n : Int),
      s.wordCount ≤ (s.updateWordCount path n).wordCount := by
    intro s path n
    unfold StudySession.updateWordCount
    by_cases h : mapHas s.initialWordCounts path
    · simp only [h, Bool.not_true, Bool.false_eq_true, if_false]
      by_cases hlt : n > mapGet s.initialWordCounts path
      · simp only [hlt, if_true]
        omega
      · simp [hlt]
    · simp [h]
  intro calls
  induction calls with
  | nil => intro s; simp
  | cons c rest ih =>
    intro s
    calc s.wordCount ≤ (s.updateWordCount c.1 c.2).wordCount := step s c.1 c.2
      _ ≤ _ := ih (s.updateWordCount c.1 c.2)

/-! ## C3: pause neutrality -/

/-- Counterexample to C3: a session started at `t = 0`, paused at
`t = 20s` and resumed at `t = 30s` reports 0 minutes just before the
pause but 1 minute just after the resume — the per-term minute rounding
is *not* neutral. -/
theorem pause_neutrality_counterexample :
    StudySession.getDuration 20000 (StudySession.create "Study" 0) = 0 ∧
    StudySession.getDuration 30000
      (((StudySession.create "Study" 0).«break» 20000).resume 30000) = 1 ∧
    ¬ StudySession.getDuration 20000 (StudySession.create "Study" 0) =
        StudySession.getDuration 30000
          (((StudySession.create "Study" 0).«break» 20000).resume 30000) := by
  decide

/-- Amended C3: across a `pause()` at `tp` answered by `resume()` at
`tr`, the unrounded quantity elapsed-minus-pause milliseconds is exactly
preserved, and the minute-rounded `getDuration()` values before the
pause and after the resume differ by at most one minute. -/
theorem pause_neutrality_amended (s : StudySession) (tp tr : Int)
    (hend : s.endTime = none) (hpause : s.breakStartTime = none) :
    (tp - s.startTime) - s.totalBreakDuration
        = (tr - s.startTime) - ((s.«break» tp).resume tr).totalBreakDuration ∧
    |StudySession.getDuration tr ((s.«break» tp).resume tr)
        - StudySession.getDuration tp s| ≤ 1 := by
  have hres : (s.«break» tp).resume tr =
      { s with totalBreakDuration := s.totalBreakDuration + (tr - tp)
               breakStartTime := none } := by
    simp [StudySession.«break», StudySession.resume, hpause]
  constructor
  · rw [hres]
    ring
  · rw [hres]
    simp only [StudySession.getDuration, hend, hpause, Option.getD_none]
    set a := tp - s.startTime with ha
    set b := s.totalBreakDuration with hb
    set p := tr - tp with hp
    have hswap : tr - s.startTime = a + p := by rw [ha, hp]; ring
    have hswap2 : b + (tr - tp) = b + p := by rw [hp]
    rw [hswap, hswap2]
    have hA := roundMsToMinutes_shift_bounds a p
    have hB := roundMsToMinutes_shift_bounds b p
    have habs : |(roundMsToMinutes (a + p) - roundMsToMinutes (b + p))
        - (roundMsToMinutes a - roundMsToMinutes b)| ≤ 1 := by
      rw [abs_le]
      constructor <;> [linarith [hA.1, hB.2]; linarith [hA.2, hB.1]]
    have hmax : |max 0 (roundMsToMinutes (a + p) - roundMsToMinutes (b + p))
        - max 0 (roundMsToMinutes a - roundMsToMinutes b)| ≤
        |(roundMsToMinutes (a + p) - roundMsToMinutes (b + p))
          - (roundMsToMinutes a - roundMsToMinutes b)| := by
      rw [max_comm 0 (roundMsToMinutes (a + p) - roundMsToMinutes (b + p)),
          max_comm 0 (roundMsToMinutes a - roundMsToMinutes b)]
      exact abs_max_sub_max_le_abs _ _ _
    linarith

/-- Witness for the amended C3 at the counterexample's own numbers:
there the two durations differ by exactly the permitted one minute. -/
theorem pause_neutrality_amended_witness :
    (20000 - (StudySession.create "Study" 0).startTime)
          - (StudySession.create "Study" 0).totalBreakDuration
        = (30000 - (StudySession.create "Study" 0).startTime)
          - (((StudySession.create "Study" 0).«break» 20000).resume 30000).totalBreakDuration ∧
    |StudySession.getDuration 30000
        (((StudySession.create "Study" 0).«break» 20000).resume 30000)
      - StudySession.getDuration 20000 (StudySession.create "Study" 0)| ≤ 1 :=
  pause_neutrality_amended (StudySession.create "Study" 0) 20000 30000 rfl rfl

/-! ## C4: double `end()` -/

/-- C4 (code bug): `end()` has no already-finalized guard.  The first
call at `t = 60000` records duration 1 and `endTime = 60000`; a second
call at `t = 120000` silently succeeds, overwrites `endTime` and returns
a fresh record with duration 2 instead of failing fast. -/
theorem double_end_not_rejected :
    firstEnd.1.duration = 1 ∧
    firstEnd.2.endTime = some 60000 ∧
    secondEnd.1.duration = 2 ∧
    secondEnd.2.endTime = some 120000 ∧
    ¬ secondEnd.1.duration = firstEnd.1.duration := by
  decide
/-! ## C5: goal monotonicity within a period -/

lemma applyGoalEvent_achieved_mono {g : RecurringGoal} {e : GoalEvent}
    (hnr : e ≠ GoalEvent.reset) (hach : g.achieved = true) :
    (applyGoalEvent g e).achieved = true := by
  cases e with
  | accrue d => simp [applyGoalEvent, accrueGoal, hach]
  | countdownComplete => simp [applyGoalEvent, completeGoalCountdown, hach]
  | reset => exact absurd rfl hnr

lemma applyGoalEvent_timeSpent_mono {g : RecurringGoal} {e : GoalEvent}
    (hnr : e ≠ GoalEvent.reset)
    (hnn : ∀ d, e = GoalEvent.accrue d → 0 ≤ d) :
    g.timeSpent ≤ (applyGoalEvent g e).timeSpent := by
  cases e with
  | accrue d =>
    have hd : (0 : ℚ) ≤ (d : ℚ) / 60 := by
      have := hnn d rfl
      positivity
    simp only [applyGoalEvent, accrueGoal]
    linarith
  | countdownComplete => simp [applyGoalEvent, completeGoalCountdown]; split <;> simp
  | reset => exact absurd rfl hnr

/-- Claim C5: within one period (no reset among the events), `achieved`
is monotone — once true it stays true — and `timeSpent` never decreases
under finalize accruals and countdown completions; the explicit period
reset is exactly what sets `timeSpent` back to 0 and `achieved` back to
false. -/
theorem goal_monotonic_within_period :
    (∀ (g : RecurringGoal) (es : List GoalEvent),
      (∀ e ∈ es, e ≠ GoalEvent.reset) →
      (∀ d, GoalEvent.accrue d ∈ es → 0 ≤ d) →
      (g.achieved = true → (applyGoalEvents g es).achieved = true) ∧
      g.timeSpent ≤ (applyGoalEvents g es).timeSpent) ∧
    (∀ g : RecurringGoal,
      applyGoalEvent g GoalEvent.reset = { g with timeSpent := 0, achieved := false }) := by
  constructor
  · intro g es
    induction es generalizing g with
    | nil => intro _ _; simp [applyGoalEvents]
    | cons e rest ih =>
      intro hnr hnn
      have hnrh : e ≠ GoalEvent.reset := hnr e (List.mem_cons_self e rest)
      have hnnh : ∀ d, e = GoalEvent.accrue d → 0 ≤ d := by
        intro d hd
        exact hnn d (hd ▸ List.mem_cons_self e rest)
      have hrest := ih (applyGoalEvent g e)
        (fun x hx => hnr x (List.mem_cons_of_mem e hx))
        (fun d hd => hnn d (List.mem_cons_of_mem e hd))
      have hstep2 := applyGoalEvent_timeSpent_mono (g := g) hnrh hnnh
      constructor
      · intro hach
        have hh : (applyGoalEvents (applyGoalEvent g e) rest).achieved = true :=
          hrest.1 (applyGoalEvent_achieved_mono hnrh hach)
        simpa [applyGoalEvents] using hh
      · calc g.timeSpent ≤ (applyGoalEvent g e).timeSpent := hstep2
          _ ≤ (applyGoalEvents (applyGoalEvent g e) rest).timeSpent := hrest.2
          _ = (applyGoalEvents g (e :: rest)).timeSpent := by simp [applyGoalEvents]
  · intro g
    rfl

/-- Witness for C5: the 2-hour goal, after a 30-minute finalize accrual
followed by a countdown completion (no reset in between), keeps a
non-decreased `timeSpent`; and the reset event zeroes the goal. -/
theorem goal_monotonic_within_period_witness :
    ((sampleGoal.achieved = true →
      (applyGoalEvents sampleGoal
        [GoalEvent.accrue 30, GoalEvent.countdownComplete]).achieved = true) ∧
      sampleGoal.timeSpent ≤
        (applyGoalEvents sampleGoal
          [GoalEvent.accrue 30, GoalEvent.countdownComplete]).timeSpent) ∧
    applyGoalEvent sampleGoal GoalEvent.reset
      = { sampleGoal with timeSpent := 0, achieved := false } :=
  ⟨goal_monotonic_within_period.1 sampleGoal
      [GoalEvent.accrue 30, GoalEvent.countdownComplete]
      (by decide)
      (by
        intro d hd
        simp only [List.mem_cons] at hd
        rcases hd with h | h | h
        · cases h; decide
        · cases h
        · cases h),
    goal_monotonic_within_period.2 sampleGoal⟩

/-! ## C7: proration is never a division by zero -/

/-- Claim C7: for week-boundary day `w` and current weekday `d`, both in
0-6, the `daysRemaining` value is never 0; it is 7 when `d = w` and 1
when `d` is the day immediately before `w`. -/
theorem daysRemaining_boundary :
    ∀ w : Nat, w < 7 → ∀ d : Nat, d < 7 →
      daysRemainingInPeriod (w : Int) (d : Int) ≠ 0 ∧
      0 < daysRemainingInPeriod (w : Int) (d : Int) ∧
      ((d : Int) = (w : Int) → daysRemainingInPeriod (w : Int) (d : Int) = 7) ∧
      (((d : Int) + 1) % 7 = (w : Int) → daysRemainingInPeriod (w : Int) (d : Int) = 1) := by
  decide

/-- Witness for C7: with the boundary on Sunday (`w = 0`), Sunday itself
yields 7 remaining days and Saturday (`d = 6`, the day before the
boundary) yields 1. -/
theorem daysRemaining_boundary_witness :
    daysRemainingInPeriod 0 0 = 7 ∧ daysRemainingInPeriod 0 6 = 1 :=
  ⟨(daysRemaining_boundary 0 (by decide) 0 (by decide)).2.2.1 (by decide),
   (daysRemaining_boundary 0 (by decide) 6 (by decide)).2.2.2 (by decide)⟩

/-! ## C10: same-category change is a no-op -/

/-- Claim C10: requesting a category change to the category the live
session already has leaves the entire state untouched — no finalize, no
persisted record, no accrual, no timer-state change. -/
theorem changeCategory_same_noop (now : Int) (newCategory : String)
    (st : AppState) (s : StudySession)
    (h1 : st.currentSession = some s) (h2 : s.category = newCategory) :
    changeCategory now newCategory st = st := by
  unfold changeCategory
  rw [h1]
  simp [h2]

/-- Witness for C10: changing the running `Study` state's category to
`Study` again changes nothing. -/
theorem changeCategory_same_noop_witness :
    changeCategory 600000 "Study" samplePomodoroState = samplePomodoroState :=
  changeCategory_same_noop 600000 "Study" samplePomodoroState
    (StudySession.create "Study" 0) rfl rfl
/-! ## Frame lemmas for the view/plugin operations -/

lemma goalsGet_goalsSet_self {gs : List (String × RecurringGoal)} {k : String}
    {g0 : RecurringGoal} (v : RecurringGoal)
    (h : goalsGet gs k = some g0) :
    goalsGet (goalsSet gs k v) k = some v := by
  induction gs with
  | nil => simp [goalsGet] at h
  | cons p rest ih =>
    by_cases hp : p.1 == k
    · simp [goalsGet, goalsSet, hp]
    · simp only [goalsSet, hp, Bool.false_eq_true, if_false]
      simp only [goalsGet, List.find?, hp] at h ⊢
      exact ih h

lemma resetSession_frame (st : AppState) :
    (resetSession st).settings = st.settings ∧
    (resetSession st).sessionsData = st.sessionsData ∧
    (resetSession st).currentSession = st.currentSession := by
  unfold resetSession
  by_cases h1 : st.isStopwatch <;> by_cases h2 : st.isRecurringSession <;>
    by_cases h3 : st.selectedCategory = "" <;>
    cases h4 : goalsGet st.settings.recurringSessionGoals st.selectedCategory <;>
    by_cases h5 : st.categoryOptions = [] <;>
    simp [h1, h2, h3, h4, h5]

lemma resetSession_settings (st : AppState) :
    (resetSession st).settings = st.settings := (resetSession_frame st).1

lemma resetSession_sessionsData (st : AppState) :
    (resetSession st).sessionsData = st.sessionsData := (resetSession_frame st).2.1

lemma resetSession_currentSession (st : AppState) :
    (resetSession st).currentSession = st.currentSession := (resetSession_frame st).2.2

lemma updateCategorySelect_settings (st : AppState) :
    (updateCategorySelect st).settings = st.settings := rfl

lemma updateCategorySelect_sessionsData (st : AppState) :
    (updateCategorySelect st).sessionsData = st.sessionsData := rfl

lemma updateCategorySelect_currentSession (st : AppState) :
    (updateCategorySelect st).currentSession = st.currentSession := rfl

lemma breakTimer_frame (now : Int) (st : AppState) :
    (breakTimer now st).settings = st.settings ∧
    (breakTimer now st).sessionsData = st.sessionsData ∧
    (breakTimer now st).currentSession = st.currentSession.map (StudySession.«break» now) ∧
    (breakTimer now st).isBreak = st.isBreak ∧
    (breakTimer now st).isStopwatch = st.isStopwatch ∧
    (breakTimer now st).isRecurringSession = st.isRecurringSession ∧
    (breakTimer now st).selectedCategory = st.selectedCategory ∧
    (breakTimer now st).notesAreaValue = st.notesAreaValue ∧
    (breakTimer now st).difficultyValue = st.difficultyValue ∧
    (breakTimer now st).pomodoroCount = st.pomodoroCount ∧
    (breakTimer now st).stopwatchElapsed = st.stopwatchElapsed ∧
    (breakTimer now st).categoryOptions = st.categoryOptions := by
  unfold breakTimer
  cases h : st.currentSession <;> by_cases h2 : st.isStopwatch <;> simp [h, h2]

lemma breakTimer_settings (now : Int) (st : AppState) :
    (breakTimer now st).settings = st.settings := (breakTimer_frame now st).1

lemma breakTimer_sessionsData (now : Int) (st : AppState) :
    (breakTimer now st).sessionsData = st.sessionsData := (breakTimer_frame now st).2.1

lemma breakTimer_currentSession (now : Int) (st : AppState) :
    (breakTimer now st).currentSession = st.currentSession.map (StudySession.«break» now) :=
  (breakTimer_frame now st).2.2.1

lemma breakTimer_isBreak (now : Int) (st : AppState) :
    (breakTimer now st).isBreak = st.isBreak := (breakTimer_frame now st).2.2.2.1

lemma breakTimer_isStopwatch (now : Int) (st : AppState) :
    (breakTimer now st).isStopwatch = st.isStopwatch := (breakTimer_frame now st).2.2.2.2.1

lemma breakTimer_isRecurringSession (now : Int) (st : AppState) :
    (breakTimer now st).isRecurringSession = st.isRecurringSession :=
  (breakTimer_frame now st).2.2.2.2.2.1

lemma breakTimer_selectedCategory (now : Int) (st : AppState) :
    (breakTimer now st).selectedCategory = st.selectedCategory :=
  (breakTimer_frame now st).2.2.2.2.2.2.1

lemma breakTimer_notesAreaValue (now : Int) (st : AppState) :
    (breakTimer now st).notesAreaValue = st.notesAreaValue :=
  (breakTimer_frame now st).2.2.2.2.2.2.2.1

lemma breakTimer_difficultyValue (now : Int) (st : AppState) :
    (breakTimer now st).difficultyValue = st.difficultyValue :=
  (breakTimer_frame now st).2.2.2.2.2.2.2.2.1

lemma breakTimer_pomodoroCount (now : Int) (st : AppState) :
    (breakTimer now st).pomodoroCount = st.pomodoroCount :=
  (breakTimer_frame now st).2.2.2.2.2.2.2.2.2.1

lemma breakTimer_stopwatchElapsed (now : Int) (st : AppState) :
    (breakTimer now st).stopwatchElapsed = st.stopwatchElapsed :=
  (breakTimer_frame now st).2.2.2.2.2.2.2.2.2.2.1

lemma breakTimer_categoryOptions (now : Int) (st : AppState) :
    (breakTimer now st).categoryOptions = st.categoryOptions :=
  (breakTimer_frame now st).2.2.2.2.2.2.2.2.2.2.2

lemma startTimer_frame (now : Int) (st : AppState) :
    (startTimer now st).settings = st.settings ∧
    (startTimer now st).sessionsData = st.sessionsData := by
  unfold startTimer startNewSession
  cases h1 : st.currentSession <;> by_cases h2 : st.isStopwatch <;>
    by_cases h3 : st.isRecurringSession <;> by_cases h4 : st.intervalActive <;>
    by_cases h6 : st.selectedCategory = "" <;>
    cases h7 : goalsGet st.settings.recurringSessionGoals st.selectedCategory <;>
    cases h5 : st.stopwatchStartTime <;>
    cases h8 : st.timerStartTime <;>
    simp [h1, h2, h3, h4, h5, h6, h7, h8]

lemma startTimer_settings (now : Int) (st : AppState) :
    (startTimer now st).settings = st.settings := (startTimer_frame now st).1

lemma startTimer_sessionsData (now : Int) (st : AppState) :
    (startTimer now st).sessionsData = st.sessionsData := (startTimer_frame now st).2

lemma break_preserves (now : Int) (s : StudySession) :
    (s.«break» now).endTime = s.endTime ∧
    (s.«break» now).category = s.category ∧
    (s.«break» now).startTime = s.startTime ∧
    (s.«break» now).wordCount = s.wordCount ∧
    (s.«break» now).totalBreakDuration = s.totalBreakDuration := by
  cases h : s.breakStartTime <;> simp [StudySession.«break», h]
/-! ## C6: when goal accrual happens -/

/-- Counterexample to C6: a pomodoro-mode interval completion finalizes
and persists a 25-minute `Study` session whose category has a configured
recurring goal, yet the goal's `timeSpent` stays `0` — it is not
incremented by the 25/60 hours the claim requires on every finalize. -/
theorem completeTimer_no_accrual_counterexample :
    (goalsGet (completeTimer 1500000 samplePomodoroState).settings.recurringSessionGoals
        "Study").map RecurringGoal.timeSpent = some 0 ∧
    (completeTimer 1500000 samplePomodoroState).sessionsData.map SessionData.duration = [25] ∧
    (completeTimer 1500000 samplePomodoroState).sessionsData.map SessionData.category
      = ["Study"] ∧
    (0 : ℚ) ≠ (25 : ℚ) / 60 :=
  ⟨by decide, by decide, by decide, by norm_num⟩

/-- Amended C6: goal accrual happens only while the view is in
goal-countdown (recurring-session) mode and the finalized session is not
a break: there, `endCurrentSession` and `changeCategory` each add the
session's duration (converted to hours) to its category's goal exactly
once; an interval (pomodoro) completion finalizes the session but never
touches the goals; and a goal-countdown completion never touches
`timeSpent`. -/
theorem goal_accrual_amended :
    (∀ (now : Int) (st : AppState) (s : StudySession) (goal : RecurringGoal),
      st.currentSession = some s → st.isRecurringSession = true → s.isBreak = false →
      goalsGet st.settings.recurringSessionGoals s.category = some goal →
      goalsGet (endCurrentSession now st).settings.recurringSessionGoals s.category
        = some (accrueGoal (StudySession.getDuration now s) goal)) ∧
    (∀ (now : Int) (newCategory : String) (st : AppState) (s : StudySession)
        (goal : RecurringGoal),
      st.currentSession = some s → s.category ≠ newCategory →
      st.isRecurringSession = true → s.isBreak = false →
      goalsGet st.settings.recurringSessionGoals s.category = some goal →
      goalsGet (changeCategory now newCategory st).settings.recurringSessionGoals s.category
        = some (accrueGoal (StudySession.getDuration now s) goal)) ∧
    (∀ (now : Int) (st : AppState), (completeTimer now st).settings = st.settings) ∧
    (∀ g : RecurringGoal, (completeGoalCountdown g).timeSpent = g.timeSpent) := by
  refine ⟨?_, ?_, ?_, ?_⟩
  · intro now st s goal h1 h2 h3 h4
    simp only [endCurrentSession, h1]
    by_cases hsd : st.settings.showDifficulty <;>
      simp only [hsd, if_true, if_false, Bool.false_eq_true, h2, h3, Bool.not_false,
        Bool.and_self, Bool.true_and, h4, resetSession_settings] <;>
      exact goalsGet_goalsSet_self _ h4 |>.trans rfl
  · intro now newCategory st s goal h1 hne h2 h3 h4
    simp only [changeCategory, h1]
    rw [if_pos hne]
    by_cases hsd : st.settings.showDifficulty <;> by_cases hrun : st.isRunning <;>
      simp only [hsd, hrun, if_true, if_false, Bool.false_eq_true, h2, h3,
        Bool.not_false, Bool.true_and, Bool.and_self, breakTimer_currentSession, h4] <;>
      (repeat' split) <;>
      (try simp_all [startNewSession, breakTimer_settings, startTimer_settings,
        goalsGet_goalsSet_self]) <;>
      rfl
  · intro now st
    simp only [completeTimer]
    by_cases hb : st.isBreak <;> cases hcs : st.currentSession <;>
      simp only [breakTimer_isBreak, breakTimer_currentSession, breakTimer_settings,
        hb, hcs, Option.map_none', Option.map_some', if_true, if_false,
        Bool.not_true, Bool.not_false, Bool.false_eq_true] <;>
      (repeat' split) <;>
      (try simp_all [startNewSession, breakTimer_settings, startTimer_settings])
  · intro g
    unfold completeGoalCountdown
    split <;> rfl

/-- Witness for the amended C6: ending the goal-countdown `Study` state
at the 25-minute mark accrues exactly the session's duration to the
`Study` goal, and the countdown completion leaves `timeSpent` alone. -/
theorem goal_accrual_amended_witness :
    goalsGet (endCurrentSession 1500000 sampleGoalModeState).settings.recurringSessionGoals
        (StudySession.create "Study" 0).category
      = some (accrueGoal (StudySession.getDuration 1500000 (StudySession.create "Study" 0))
          sampleGoal) ∧
    (completeGoalCountdown sampleGoal).timeSpent = sampleGoal.timeSpent :=
  ⟨goal_accrual_amended.1 1500000 sampleGoalModeState (StudySession.create "Study" 0)
      sampleGoal rfl rfl (by decide) (by decide),
    goal_accrual_amended.2.2.2 sampleGoal⟩

/-! ## C8: mode switching does not finalize -/

/-- Counterexample to C8: switching the timer mode on a running state
with a live 10-minute-old session persists no record (`sessionsData`
stays empty) and leaves the session un-finalized (`endTime` still
absent) — `toggleTimerMode` never calls `end()`. -/
theorem toggleTimerMode_counterexample :
    (toggleTimerMode 600000 samplePomodoroState).sessionsData = [] ∧
    (toggleTimerMode 600000 samplePomodoroState).currentSession.map StudySession.endTime
      = some none := by
  decide

lemma toggleTimerMode_core (now : Int) (st : AppState) :
    (toggleTimerMode now st).sessionsData = st.sessionsData ∧
    (toggleTimerMode now st).currentSession =
      (if st.isRunning then st.currentSession.map (StudySession.«break» now)
       else st.currentSession) := by
  simp only [toggleTimerMode]
  by_cases hrun : st.isRunning <;> by_cases hsw : st.isStopwatch <;>
    by_cases hrec : st.isRecurringSession <;>
    by_cases hen : st.settings.enableRecurringSessions <;>
    simp only [hrun, hsw, hrec, hen, if_true, if_false, Bool.false_eq_true,
      Bool.not_true, Bool.not_false, Bool.true_and, Bool.and_self,
      breakTimer_isStopwatch, breakTimer_isRecurringSession, breakTimer_settings,
      breakTimer_selectedCategory, breakTimer_sessionsData, breakTimer_currentSession] <;>
    (repeat' split) <;>
    (try simp_all [resetSession_sessionsData, resetSession_currentSession,
      updateCategorySelect_sessionsData, updateCategorySelect_currentSession,
      breakTimer_sessionsData, breakTimer_currentSession])

/-- Amended C8: switching the timer mode while a session is live pauses
it (when the timer was running) and resets the timer state, but never
finalizes or persists it: the record list is unchanged and the session
stays live with its `endTime`, category, start time and word count
intact. -/
theorem toggleTimerMode_amended (now : Int) (st : AppState) (s : StudySession)
    (h : st.currentSession = some s) :
    (toggleTimerMode now st).sessionsData = st.sessionsData ∧
    ∃ s2, (toggleTimerMode now st).currentSession = some s2 ∧
      s2.endTime = s.endTime ∧ s2.category = s.category ∧
      s2.startTime = s.startTime ∧ s2.wordCount = s.wordCount := by
  obtain ⟨hd, hc⟩ := toggleTimerMode_core now st
  refine ⟨hd, ?_⟩
  by_cases hrun : st.isRunning
  · refine ⟨s.«break» now, ?_, (break_preserves now s).1, (break_preserves now s).2.1,
      (break_preserves now s).2.2.1, (break_preserves now s).2.2.2.1⟩
    rw [hc, if_pos hrun, h]
    rfl
  · exact ⟨s, by rw [hc, if_neg hrun, h], rfl, rfl, rfl, rfl⟩

/-- Witness for the amended C8 on the concrete running pomodoro state. -/
theorem toggleTimerMode_amended_witness :
    (toggleTimerMode 600000 samplePomodoroState).sessionsData
        = samplePomodoroState.sessionsData ∧
    ∃ s2, (toggleTimerMode 600000 samplePomodoroState).currentSession = some s2 ∧
      s2.endTime = (StudySession.create "Study" 0).endTime ∧
      s2.category = (StudySession.create "Study" 0).category ∧
      s2.startTime = (StudySession.create "Study" 0).startTime ∧
      s2.wordCount = (StudySession.create "Study" 0).wordCount :=
  toggleTimerMode_amended 600000 samplePomodoroState (StudySession.create "Study" 0) rfl
